import Mathlib

/-!
# Shallow embedding of the convex-stripe-component record store

This file embeds the Convex record store and the webhook mutation handlers of
src/component/public.ts, together with the payment_intent.succeeded branch of
the example webhook dispatcher in example/convex/http.ts, and proves the
documented synchronization properties about them.

Modelling conventions, taken from the Convex platform semantics that the
source relies on:
* each table is a list of rows; the natural-key index lookup with .unique()
  is modelled as find-first over the list (the store keeps at most one row
  per natural key, stated as a hypothesis where a proof needs it);
* ctx.db.insert appends the new row at the end of the table;
* ctx.db.patch merges the given fields into the found row; a field whose
  value is undefined in the patch object is removed from the row, which is
  the documented Convex behaviour the source code relies on (the handler
  handleSubscriptionUpdated conditionally spreads keys precisely to avoid
  this removal, while the customer handlers always pass all three keys);
* JavaScript numbers are modelled as Rat where fractional arithmetic occurs
  (timestamps divided by 1000) and as Int elsewhere; the Convex builtin
  field _creationTime is the insertion wall-clock time in milliseconds;
* an optional JavaScript string value is Option String; its truthiness test
  is false exactly on undefined and on the empty string.
-/

/-- An opaque JSON-like metadata bag, modelled as an association list from
string keys to string values (the source only reads string-typed entries,
namely the reserved keys orgId and userId). -/
abbrev Metadata := List (String × String)

/-- Property access bag.key on a JavaScript object: the value at the key, or
undefined when the key is absent. -/
def mdLookup (m : Metadata) (k : String) : Option String :=
  (m.find? (fun p => p.fst == k)).map Prod.snd

/-- JavaScript truthiness of an optional string: undefined and the empty
string are falsy, every other string is truthy. -/
def strTruthy : Option String → Bool
  | none => false
  | some s => !(s == "")

/-- Patch the row found by a unique natural-key lookup: ctx.db.patch applied
to the row returned by .unique(). With at most one row per natural key this
updates exactly the matching row and leaves every other row in place. -/
def patchFirst (p : α → Bool) (f : α → α) : List α → List α
  | [] => []
  | x :: xs => if p x then f x :: xs else x :: patchFirst p f xs

/-- A row of the customers table. -/
structure Customer where
  stripeCustomerId : String
  email : Option String
  name : Option String
  metadata : Option Metadata
deriving DecidableEq, Repr

/-- A row of the subscriptions table. creationTime is the Convex builtin
_creationTime field, in milliseconds since the epoch. -/
structure Subscription where
  creationTime : Rat
  stripeSubscriptionId : String
  stripeCustomerId : String
  status : String
  currentPeriodEnd : Int
  cancelAtPeriodEnd : Bool
  quantity : Option Int
  priceId : String
  metadata : Option Metadata
  orgId : Option String
  userId : Option String
deriving DecidableEq, Repr

/-- A row of the payments table. -/
structure Payment where
  stripePaymentIntentId : String
  stripeCustomerId : Option String
  amount : Int
  currency : String
  status : String
  created : Int
  metadata : Option Metadata
  orgId : Option String
  userId : Option String
deriving DecidableEq, Repr

/-- A row of the checkout_sessions table. -/
structure CheckoutSession where
  stripeCheckoutSessionId : String
  stripeCustomerId : Option String
  status : String
  mode : String
  metadata : Option Metadata
deriving DecidableEq, Repr

/-- A row of the invoices table. -/
structure Invoice where
  stripeInvoiceId : String
  stripeCustomerId : String
  stripeSubscriptionId : Option String
  status : String
  amountDue : Int
  amountPaid : Int
  created : Int
deriving DecidableEq, Repr

/-- The record store: the five tables of the component. -/
structure Store where
  customers : List Customer
  subscriptions : List Subscription
  payments : List Payment
  checkoutSessions : List CheckoutSession
  invoices : List Invoice
deriving DecidableEq, Repr

/-- The store with every table empty. -/
def emptyStore : Store := ⟨[], [], [], [], []⟩

-- ===========================================================================
-- Queries (public.ts)
-- ===========================================================================

/-- getCustomer: point lookup by the natural key stripeCustomerId. -/
def getCustomer (s : Store) (stripeCustomerId : String) : Option Customer :=
  s.customers.find? (fun c => c.stripeCustomerId == stripeCustomerId)

/-- getSubscription: point lookup by the natural key stripeSubscriptionId. -/
def getSubscription (s : Store) (stripeSubscriptionId : String) :
    Option Subscription :=
  s.subscriptions.find? (fun b => b.stripeSubscriptionId == stripeSubscriptionId)

/-- listSubscriptions: all subscriptions of a customer (index
by_stripe_customer_id, collect). -/
def listSubscriptions (s : Store) (stripeCustomerId : String) :
    List Subscription :=
  s.subscriptions.filter (fun b => b.stripeCustomerId == stripeCustomerId)

/-- getSubscriptionByOrgId: first subscription on the by_org_id index. -/
def getSubscriptionByOrgId (s : Store) (orgId : String) : Option Subscription :=
  s.subscriptions.find? (fun b => b.orgId == some orgId)

/-- listSubscriptionsByUserId: all subscriptions on the by_user_id index. -/
def listSubscriptionsByUserId (s : Store) (userId : String) :
    List Subscription :=
  s.subscriptions.filter (fun b => b.userId == some userId)

/-- getPayment: point lookup by the natural key stripePaymentIntentId. -/
def getPayment (s : Store) (stripePaymentIntentId : String) : Option Payment :=
  s.payments.find? (fun p => p.stripePaymentIntentId == stripePaymentIntentId)

-- ===========================================================================
-- Mutation handlers (public.ts)
-- ===========================================================================

/-- Argument record of createOrUpdateCustomer, handleCustomerCreated and
handleCustomerUpdated: email, name and metadata are optional. -/
structure CustomerArgs where
  stripeCustomerId : String
  email : Option String
  name : Option String
  metadata : Option Metadata

/-- createOrUpdateCustomer: find by natural key; if present, patch the three
fields email, name, metadata with the argument values (the patch object
always carries all three keys, so an undefined argument removes the field);
otherwise insert a new row with exactly the argument values. -/
def createOrUpdateCustomer (a : CustomerArgs) (s : Store) : Store :=
  match s.customers.find? (fun c => c.stripeCustomerId == a.stripeCustomerId) with
  | some _ =>
    let customers := patchFirst (fun c => c.stripeCustomerId == a.stripeCustomerId)
      (fun c => { c with email := a.email, name := a.name, metadata := a.metadata })
      s.customers
    { s with customers := customers }
  | none =>
    let customers := s.customers ++
      [{ stripeCustomerId := a.stripeCustomerId, email := a.email,
         name := a.name, metadata := a.metadata : Customer }]
    { s with customers := customers }

/-- handleCustomerCreated: insert only if the natural key is absent; the
metadata field defaults to the empty bag. -/
def handleCustomerCreated (a : CustomerArgs) (s : Store) : Store :=
  match s.customers.find? (fun c => c.stripeCustomerId == a.stripeCustomerId) with
  | some _ => s
  | none =>
    let customers := s.customers ++
      [{ stripeCustomerId := a.stripeCustomerId, email := a.email,
         name := a.name, metadata := some (a.metadata.getD []) : Customer }]
    { s with customers := customers }

/-- handleCustomerUpdated: patch only if the natural key is present; the
patch object always carries the keys email, name and metadata, so an
undefined argument removes the corresponding field from the row. -/
def handleCustomerUpdated (a : CustomerArgs) (s : Store) : Store :=
  match s.customers.find? (fun c => c.stripeCustomerId == a.stripeCustomerId) with
  | some _ =>
    let customers := patchFirst (fun c => c.stripeCustomerId == a.stripeCustomerId)
      (fun c => { c with email := a.email, name := a.name, metadata := a.metadata })
      s.customers
    { s with customers := customers }
  | none => s

/-- Argument record of handleSubscriptionCreated. -/
structure SubscriptionCreatedArgs where
  stripeSubscriptionId : String
  stripeCustomerId : String
  status : String
  currentPeriodEnd : Int
  cancelAtPeriodEnd : Bool
  quantity : Option Int
  priceId : String
  metadata : Option Metadata

/-- handleSubscriptionCreated: insert only if the natural key is absent;
extract orgId and userId from the metadata bag into the indexed fields and
store the bag itself verbatim. now is the insertion wall-clock time in
milliseconds, recorded by Convex as _creationTime. -/
def handleSubscriptionCreated (now : Rat) (a : SubscriptionCreatedArgs)
    (s : Store) : Store :=
  match s.subscriptions.find?
      (fun b => b.stripeSubscriptionId == a.stripeSubscriptionId) with
  | some _ => s
  | none =>
    let metadata := a.metadata.getD []
    let subscriptions := s.subscriptions ++
      [{ creationTime := now,
         stripeSubscriptionId := a.stripeSubscriptionId,
         stripeCustomerId := a.stripeCustomerId,
         status := a.status,
         currentPeriodEnd := a.currentPeriodEnd,
         cancelAtPeriodEnd := a.cancelAtPeriodEnd,
         quantity := a.quantity,
         priceId := a.priceId,
         metadata := some metadata,
         orgId := mdLookup metadata "orgId",
         userId := mdLookup metadata "userId" : Subscription }]
    { s with subscriptions := subscriptions }

/-- Argument record of handleSubscriptionUpdated. -/
structure SubscriptionUpdatedArgs where
  stripeSubscriptionId : String
  status : String
  currentPeriodEnd : Int
  cancelAtPeriodEnd : Bool
  quantity : Option Int
  metadata : Option Metadata

/-- handleSubscriptionUpdated: patch only if the natural key is present.
The patch always writes status, currentPeriodEnd, cancelAtPeriodEnd and
quantity; the keys metadata, orgId and userId are spread into the patch
object only when defined, so they are left untouched otherwise. -/
def handleSubscriptionUpdated (a : SubscriptionUpdatedArgs) (s : Store) :
    Store :=
  match s.subscriptions.find?
      (fun b => b.stripeSubscriptionId == a.stripeSubscriptionId) with
  | some _ =>
    let metadata := a.metadata.getD []
    let orgId := mdLookup metadata "orgId"
    let userId := mdLookup metadata "userId"
    let subscriptions :=
      patchFirst (fun b => b.stripeSubscriptionId == a.stripeSubscriptionId)
        (fun b =>
          { b with
            status := a.status,
            currentPeriodEnd := a.currentPeriodEnd,
            cancelAtPeriodEnd := a.cancelAtPeriodEnd,
            quantity := a.quantity,
            metadata := if a.metadata.isSome then some metadata else b.metadata,
            orgId := if orgId.isSome then orgId else b.orgId,
            userId := if userId.isSome then userId else b.userId })
        s.subscriptions
    { s with subscriptions := subscriptions }
  | none => s

/-- handleSubscriptionDeleted: patch status to canceled if the natural key is
present; the row is retained, never removed. -/
def handleSubscriptionDeleted (stripeSubscriptionId : String) (s : Store) :
    Store :=
  match s.subscriptions.find?
      (fun b => b.stripeSubscriptionId == stripeSubscriptionId) with
  | some _ =>
    let subscriptions :=
      patchFirst (fun b => b.stripeSubscriptionId == stripeSubscriptionId)
        (fun b => { b with status := "canceled" }) s.subscriptions
    { s with subscriptions := subscriptions }
  | none => s

/-- updateSubscriptionQuantityInternal: patch the quantity of an existing
subscription; no-op when the natural key is absent. -/
def updateSubscriptionQuantityInternal (stripeSubscriptionId : String)
    (quantity : Int) (s : Store) : Store :=
  match s.subscriptions.find?
      (fun b => b.stripeSubscriptionId == stripeSubscriptionId) with
  | some _ =>
    let subscriptions :=
      patchFirst (fun b => b.stripeSubscriptionId == stripeSubscriptionId)
        (fun b => { b with quantity := some quantity }) s.subscriptions
    { s with subscriptions := subscriptions }
  | none => s

/-- Argument record of handleCheckoutSessionCompleted. -/
structure CheckoutSessionCompletedArgs where
  stripeCheckoutSessionId : String
  stripeCustomerId : Option String
  mode : String
  metadata : Option Metadata

/-- handleCheckoutSessionCompleted: if the natural key is present, patch the
row to status complete and overwrite stripeCustomerId with the argument
value (the patch object always carries the key, so an undefined argument
removes a stored customer id); otherwise insert a fresh completed row. -/
def handleCheckoutSessionCompleted (a : CheckoutSessionCompletedArgs)
    (s : Store) : Store :=
  match s.checkoutSessions.find?
      (fun c => c.stripeCheckoutSessionId == a.stripeCheckoutSessionId) with
  | some _ =>
    let checkoutSessions :=
      patchFirst (fun c => c.stripeCheckoutSessionId == a.stripeCheckoutSessionId)
        (fun c => { c with status := "complete", stripeCustomerId := a.stripeCustomerId })
        s.checkoutSessions
    { s with checkoutSessions := checkoutSessions }
  | none =>
    let checkoutSessions := s.checkoutSessions ++
      [{ stripeCheckoutSessionId := a.stripeCheckoutSessionId,
         stripeCustomerId := a.stripeCustomerId,
         status := "complete",
         mode := a.mode,
         metadata := some (a.metadata.getD []) : CheckoutSession }]
    { s with checkoutSessions := checkoutSessions }

/-- Argument record of handleInvoiceCreated. -/
structure InvoiceCreatedArgs where
  stripeInvoiceId : String
  stripeCustomerId : String
  stripeSubscriptionId : Option String
  status : String
  amountDue : Int
  amountPaid : Int
  created : Int

/-- handleInvoiceCreated: insert only if the natural key is absent. -/
def handleInvoiceCreated (a : InvoiceCreatedArgs) (s : Store) : Store :=
  match s.invoices.find? (fun i => i.stripeInvoiceId == a.stripeInvoiceId) with
  | some _ => s
  | none =>
    let invoices := s.invoices ++
      [{ stripeInvoiceId := a.stripeInvoiceId,
         stripeCustomerId := a.stripeCustomerId,
         stripeSubscriptionId := a.stripeSubscriptionId,
         status := a.status,
         amountDue := a.amountDue,
         amountPaid := a.amountPaid,
         created := a.created : Invoice }]
    { s with invoices := invoices }

/-- handleInvoicePaid: patch status to paid and set amountPaid if present;
no-op when the natural key is absent. -/
def handleInvoicePaid (stripeInvoiceId : String) (amountPaid : Int)
    (s : Store) : Store :=
  match s.invoices.find? (fun i => i.stripeInvoiceId == stripeInvoiceId) with
  | some _ =>
    let invoices :=
      patchFirst (fun i => i.stripeInvoiceId == stripeInvoiceId)
        (fun i => { i with status := "paid", amountPaid := amountPaid })
        s.invoices
    { s with invoices := invoices }
  | none => s

/-- handleInvoicePaymentFailed: patch status to open if present; no-op when
the natural key is absent. -/
def handleInvoicePaymentFailed (stripeInvoiceId : String) (s : Store) :
    Store :=
  match s.invoices.find? (fun i => i.stripeInvoiceId == stripeInvoiceId) with
  | some _ =>
    let invoices :=
      patchFirst (fun i => i.stripeInvoiceId == stripeInvoiceId)
        (fun i => { i with status := "open" }) s.invoices
    { s with invoices := invoices }
  | none => s

/-- Argument record of handlePaymentIntentSucceeded. -/
structure PaymentIntentSucceededArgs where
  stripePaymentIntentId : String
  stripeCustomerId : Option String
  amount : Int
  currency : String
  status : String
  created : Int
  metadata : Option Metadata

/-- handlePaymentIntentSucceeded: insert a payment row if the natural key is
absent, extracting orgId and userId from the metadata bag; if a row exists,
patch its stripeCustomerId from the arguments only when the argument value
is truthy and the stored value is falsy (the webhook timing backfill). -/
def handlePaymentIntentSucceeded (a : PaymentIntentSucceededArgs) (s : Store) :
    Store :=
  match s.payments.find?
      (fun p => p.stripePaymentIntentId == a.stripePaymentIntentId) with
  | none =>
    let metadata := a.metadata.getD []
    let payments := s.payments ++
      [{ stripePaymentIntentId := a.stripePaymentIntentId,
         stripeCustomerId := a.stripeCustomerId,
         amount := a.amount,
         currency := a.currency,
         status := a.status,
         created := a.created,
         metadata := some metadata,
         orgId := mdLookup metadata "orgId",
         userId := mdLookup metadata "userId" : Payment }]
    { s with payments := payments }
  | some existing =>
    if strTruthy a.stripeCustomerId && !(strTruthy existing.stripeCustomerId) then
      let payments :=
        patchFirst (fun p => p.stripePaymentIntentId == a.stripePaymentIntentId)
          (fun p => { p with stripeCustomerId := a.stripeCustomerId })
          s.payments
      { s with payments := payments }
    else s

/-- updatePaymentCustomer: patch the stripeCustomerId of an existing payment
only when the stored value is falsy (write-once backfill); no-op when the
natural key is absent. -/
def updatePaymentCustomer (stripePaymentIntentId stripeCustomerId : String)
    (s : Store) : Store :=
  match s.payments.find?
      (fun p => p.stripePaymentIntentId == stripePaymentIntentId) with
  | some payment =>
    if !(strTruthy payment.stripeCustomerId) then
      let payments :=
        patchFirst (fun p => p.stripePaymentIntentId == stripePaymentIntentId)
          (fun p => { p with stripeCustomerId := some stripeCustomerId })
          s.payments
      { s with payments := payments }
    else s
  | none => s

-- ===========================================================================
-- Outbound action updateSubscriptionQuantity (public.ts)
-- ===========================================================================

/-- A subscription item as returned by the remote retrieve call. -/
structure SubscriptionItem where
  id : String

/-- The remote subscription object: its list of items (items.data). -/
structure RemoteSubscription where
  items : List SubscriptionItem

/-- The action updateSubscriptionQuantity: retrieve the subscription from the
remote service, update the quantity of its first item remotely, and only
then patch the local row. The two remote calls are oracles returning Except;
an error models the awaited promise rejecting, which aborts the action
before any later step runs. The result pairs the outcome surfaced to the
caller with the resulting local store. -/
def updateSubscriptionQuantity
    (retrieve : String → Except String RemoteSubscription)
    (updateItem : String → Int → Except String Unit)
    (stripeSubscriptionId : String) (quantity : Int) (s : Store) :
    Except String Unit × Store :=
  match retrieve stripeSubscriptionId with
  | .error e => (.error e, s)
  | .ok subscription =>
    match subscription.items with
    | [] => (.error "Subscription has no items", s)
    | item :: _ =>
      match updateItem item.id quantity with
      | .error e => (.error e, s)
      | .ok _ =>
        (.ok (), updateSubscriptionQuantityInternal stripeSubscriptionId quantity s)

-- ===========================================================================
-- Webhook dispatcher branch for payment_intent.succeeded (http.ts)
-- ===========================================================================

/-- The payment_intent.succeeded event payload fields read by the
dispatcher. -/
structure PaymentIntentEvent where
  id : String
  customer : Option String
  amount : Int
  currency : String
  status : String
  created : Int
  metadata : Option Metadata
  invoice : Option String

/-- The payment_intent.succeeded branch of the example webhook handler.
retrieveInvoice is the remote invoice fetch of classifier step 1: an error
models the fetch throwing, an ok value carries the subscription field of the
fetched invoice. now is Date.now() at processing time, in milliseconds.
Step 1 skips when the fetched invoice has a truthy subscription field; step
2 skips when some local subscription of the customer of the event satisfies
the recency comparison written in the source, namely
creationTime > now / 1000 - 600; otherwise the mutation
handlePaymentIntentSucceeded runs with the extracted arguments. -/
def processPaymentIntentSucceeded
    (retrieveInvoice : String → Except Unit (Option String))
    (now : Rat) (e : PaymentIntentEvent) (s : Store) : Store :=
  let skipByInvoice : Bool :=
    if strTruthy e.invoice then
      match retrieveInvoice (e.invoice.getD "") with
      | .ok subscriptionField => strTruthy subscriptionField
      | .error _ => false
    else false
  if skipByInvoice then s
  else
    let skipByRecentSubscription : Bool :=
      if strTruthy e.customer then
        let recentSubscriptions := listSubscriptions s (e.customer.getD "")
        let tenMinutesAgo : Rat := now / 1000 - 600
        (recentSubscriptions.find?
          (fun sub => decide (sub.creationTime > tenMinutesAgo))).isSome
      else false
    if skipByRecentSubscription then s
    else
      handlePaymentIntentSucceeded
        { stripePaymentIntentId := e.id,
          stripeCustomerId := if strTruthy e.customer then e.customer else none,
          amount := e.amount,
          currency := e.currency,
          status := e.status,
          created := e.created,
          metadata := some (e.metadata.getD []) } s

-- ===========================================================================
-- Concrete instances used by the verification scenarios
-- ===========================================================================

/-- A one-item metadata-free subscription for customer cus_1 whose Convex
creation time is 1699998800000 ms, i.e. 1200000 ms (20 minutes) before the
processing time 1700000000000 ms used in the C1 scenario. -/
def c1Subscription : Subscription :=
  { creationTime := 1699998800000, stripeSubscriptionId := "sub_1",
    stripeCustomerId := "cus_1", status := "active",
    currentPeriodEnd := 1702592000, cancelAtPeriodEnd := false,
    quantity := some 1, priceId := "price_1", metadata := some [],
    orgId := none, userId := none }

/-- Store holding only the 20-minute-old subscription of cus_1. -/
def c1Store : Store := { emptyStore with subscriptions := [c1Subscription] }

/-- A captured-payment event for cus_1 carrying no invoice reference. -/
def c1Event : PaymentIntentEvent :=
  { id := "pi_1", customer := some "cus_1", amount := 1000, currency := "usd",
    status := "succeeded", created := 1700000000, metadata := some [],
    invoice := none }

/-- Remote invoice fetch oracle that always fails; it is never consulted in
the C1 scenario because the event has no invoice reference. -/
def c1Fetch : String → Except Unit (Option String) := fun _ => Except.error ()

/-- An existing customer row with email, display name and metadata set. -/
def c2Customer : Customer :=
  { stripeCustomerId := "cus_1", email := some "old@example.com",
    name := some "Old Name", metadata := some [("tier", "gold")] }

/-- Store holding only the customer row c2Customer. -/
def c2Store : Store := { emptyStore with customers := [c2Customer] }

/-- A customer update that explicitly supplies only the email field. -/
def c2Args : CustomerArgs :=
  { stripeCustomerId := "cus_1", email := some "new@example.com",
    name := none, metadata := none }

/-- A captured-payment notification for pi_1 with no customer attached. -/
def c3Args0 : PaymentIntentSucceededArgs :=
  { stripePaymentIntentId := "pi_1", stripeCustomerId := none, amount := 1000,
    currency := "usd", status := "succeeded", created := 1700000000,
    metadata := some [] }

/-- The store after inserting payment pi_1 without a customer and then
backfilling its customer id to cus_A. -/
def c3Store : Store :=
  updatePaymentCustomer "pi_1" "cus_A"
    (handlePaymentIntentSucceeded c3Args0 emptyStore)

/-- The payment row held by c3Store. -/
def c3Payment : Payment :=
  { stripePaymentIntentId := "pi_1", stripeCustomerId := some "cus_A",
    amount := 1000, currency := "usd", status := "succeeded",
    created := 1700000000, metadata := some [], orgId := none, userId := none }

/-- A redelivered captured-payment notification for pi_1 naming cus_B. -/
def c3Args2 : PaymentIntentSucceededArgs :=
  { stripePaymentIntentId := "pi_1", stripeCustomerId := some "cus_B",
    amount := 1000, currency := "usd", status := "succeeded",
    created := 1700000000, metadata := some [] }

/-- Creation notification payloads for the C4 idempotence scenario. -/
def c4CustomerArgs : CustomerArgs :=
  { stripeCustomerId := "cus_2", email := some "x@example.com",
    name := some "X", metadata := some [("k", "v")] }

/-- Subscription creation payload for the C4 idempotence scenario. -/
def c4SubArgs : SubscriptionCreatedArgs :=
  { stripeSubscriptionId := "sub_2", stripeCustomerId := "cus_2",
    status := "active", currentPeriodEnd := 100, cancelAtPeriodEnd := false,
    quantity := some 1, priceId := "price_1", metadata := some [] }

/-- Invoice creation payload for the C4 idempotence scenario. -/
def c4InvoiceArgs : InvoiceCreatedArgs :=
  { stripeInvoiceId := "in_1", stripeCustomerId := "cus_2",
    stripeSubscriptionId := some "sub_2", status := "open", amountDue := 999,
    amountPaid := 0, created := 1700000000 }

/-- Payment capture payload for the C4 idempotence scenario. -/
def c4PayArgs : PaymentIntentSucceededArgs :=
  { stripePaymentIntentId := "pi_2", stripeCustomerId := some "cus_2",
    amount := 999, currency := "usd", status := "succeeded",
    created := 1700000000, metadata := some [] }

/-- A subscription row with metadata bag and both linkage fields set. -/
def c5Subscription : Subscription :=
  { creationTime := 0, stripeSubscriptionId := "sub_1",
    stripeCustomerId := "cus_1", status := "active", currentPeriodEnd := 100,
    cancelAtPeriodEnd := false, quantity := some 5, priceId := "price_1",
    metadata := some [("plan", "pro")], orgId := some "org_1",
    userId := some "u_1" }

/-- Store holding only the subscription row c5Subscription. -/
def c5Store : Store := { emptyStore with subscriptions := [c5Subscription] }

/-- A subscription update supplying status, period, cancel flag and quantity
but no metadata. -/
def c5Args : SubscriptionUpdatedArgs :=
  { stripeSubscriptionId := "sub_1", status := "past_due",
    currentPeriodEnd := 200, cancelAtPeriodEnd := true, quantity := some 7,
    metadata := none }

/-- A customer update for a customer id with no stored row. -/
def c6CustomerArgs : CustomerArgs :=
  { stripeCustomerId := "cus_missing", email := some "a@b.c", name := none,
    metadata := none }

/-- A subscription update for a subscription id with no stored row. -/
def c6SubArgs : SubscriptionUpdatedArgs :=
  { stripeSubscriptionId := "sub_missing", status := "active",
    currentPeriodEnd := 0, cancelAtPeriodEnd := false, quantity := none,
    metadata := none }

/-- A remote retrieve oracle whose call always fails. -/
def c7Retrieve : String → Except String RemoteSubscription :=
  fun _ => Except.error "network unreachable"

/-- A remote item update oracle that always succeeds; it is never reached in
the C7 witness because the retrieve call already fails. -/
def c7UpdateItem : String → Int → Except String Unit :=
  fun _ _ => Except.ok ()

/-- An active subscription row for the C8 deletion scenario. -/
def c8Subscription : Subscription :=
  { creationTime := 0, stripeSubscriptionId := "sub_X",
    stripeCustomerId := "cus_1", status := "active", currentPeriodEnd := 100,
    cancelAtPeriodEnd := false, quantity := some 2, priceId := "price_1",
    metadata := some [], orgId := none, userId := none }

/-- Store holding only the subscription row c8Subscription. -/
def c8Store : Store := { emptyStore with subscriptions := [c8Subscription] }

/-- A subscription creation payload whose metadata bag carries the reserved
keys orgId and userId next to an ordinary key. -/
def c9Args : SubscriptionCreatedArgs :=
  { stripeSubscriptionId := "sub_1", stripeCustomerId := "cus_1",
    status := "active", currentPeriodEnd := 100, cancelAtPeriodEnd := false,
    quantity := some 1, priceId := "price_1",
    metadata := some [("orgId", "org_1"), ("userId", "u_1"), ("plan", "pro")] }

/-- A completed checkout session row with a stored customer id. -/
def c10Session : CheckoutSession :=
  { stripeCheckoutSessionId := "cs_1", stripeCustomerId := some "cus_9",
    status := "complete", mode := "payment", metadata := some [] }

/-- Store holding only the checkout session row c10Session. -/
def c10Store : Store := { emptyStore with checkoutSessions := [c10Session] }

/-- A redelivered completion notification for cs_1 with no customer id. -/
def c10Args : CheckoutSessionCompletedArgs :=
  { stripeCheckoutSessionId := "cs_1", stripeCustomerId := none,
    mode := "payment", metadata := none }

-- ===========================================================================
-- Helper lemmas about the store primitives
-- ===========================================================================

theorem patchFirst_length (p : α → Bool) (f : α → α) (l : List α) :
    (patchFirst p f l).length = l.length := by
  induction l with
  | nil => rfl
  | cons x xs ih =>
    by_cases h : p x = true
    · simp [patchFirst, h]
    · simp [patchFirst, h, ih]

theorem patchFirst_of_forall_not (p : α → Bool) (f : α → α) (l : List α)
    (h : ∀ x ∈ l, ¬ p x = true) : patchFirst p f l = l := by
  induction l with
  | nil => rfl
  | cons x xs ih =>
    have hx := h x (List.mem_cons_self x xs)
    simp only [patchFirst, if_neg hx]
    rw [ih (fun y hy => h y (List.mem_cons_of_mem x hy))]

theorem find?_append_of_none (p : α → Bool) (l l' : List α)
    (h : l.find? p = none) : (l ++ l').find? p = l'.find? p := by
  induction l with
  | nil => rfl
  | cons x xs ih =>
    by_cases hx : p x = true
    · rw [List.find?_cons_of_pos _ hx] at h
      exact absurd h (by simp)
    · rw [List.find?_cons_of_neg _ hx] at h
      rw [List.cons_append, List.find?_cons_of_neg _ hx]
      exact ih h

theorem find?_patchFirst (p : α → Bool) (f : α → α) (l : List α) (x : α)
    (h : l.find? p = some x) (hf : p (f x) = true) :
    (patchFirst p f l).find? p = some (f x) := by
  induction l with
  | nil => simp at h
  | cons y ys ih =>
    by_cases hy : p y = true
    · rw [List.find?_cons_of_pos _ hy] at h
      injection h with hxy
      subst hxy
      simp only [patchFirst, if_pos hy]
      rw [List.find?_cons_of_pos _ hf]
    · rw [List.find?_cons_of_neg _ hy] at h
      simp only [patchFirst, if_neg hy]
      rw [List.find?_cons_of_neg _ hy]
      exact ih h

theorem countP_patchFirst (p : α → Bool) (f : α → α) (l : List α)
    (hf : ∀ x, p x = true → p (f x) = true) :
    (patchFirst p f l).countP p = l.countP p := by
  induction l with
  | nil => rfl
  | cons x xs ih =>
    by_cases hx : p x = true
    · simp only [patchFirst, if_pos hx]
      rw [List.countP_cons, List.countP_cons, hf x hx, hx]
    · simp only [patchFirst, if_neg hx]
      rw [List.countP_cons, List.countP_cons, ih]

theorem find?_append_singleton_of_none (p : α → Bool) (l : List α) (x : α)
    (h : l.find? p = none) (hx : p x = true) : (l ++ [x]).find? p = some x := by
  rw [find?_append_of_none _ _ _ h, List.find?_cons_of_pos _ hx]

theorem countP_append_singleton_of_none (p : α → Bool) (l : List α) (x : α)
    (h : l.find? p = none) (hx : p x = true) : (l ++ [x]).countP p = 1 := by
  rw [List.countP_append]
  rw [List.countP_eq_zero.mpr (by simpa using List.find?_eq_none.mp h)]
  simp [List.countP_cons, hx]

theorem countP_eq_one_of_find?_some (p : α → Bool) (l : List α) (x : α)
    (h : l.find? p = some x) (hle : l.countP p ≤ 1) : l.countP p = 1 := by
  have hpos : 0 < l.countP p :=
    List.countP_pos_iff.mpr ⟨x, List.mem_of_find?_eq_some h, List.find?_some h⟩
  omega

theorem paymentIntent_noop_of_truthy
    (s : Store) (a : PaymentIntentSucceededArgs) (p : Payment)
    (h : s.payments.find?
      (fun q => q.stripePaymentIntentId == a.stripePaymentIntentId) = some p)
    (htr : strTruthy p.stripeCustomerId = true) :
    handlePaymentIntentSucceeded a s = s := by
  unfold handlePaymentIntentSucceeded
  rw [h]
  simp [htr]

theorem paymentIntent_noop_of_cond_false
    (s : Store) (a : PaymentIntentSucceededArgs) (p : Payment)
    (h : s.payments.find?
      (fun q => q.stripePaymentIntentId == a.stripePaymentIntentId) = some p)
    (hc : (strTruthy a.stripeCustomerId &&
      !(strTruthy p.stripeCustomerId)) = false) :
    handlePaymentIntentSucceeded a s = s := by
  unfold handlePaymentIntentSucceeded
  rw [h]
  simp [hc]

theorem paymentIntent_insert
    (s : Store) (a : PaymentIntentSucceededArgs)
    (h : s.payments.find?
      (fun q => q.stripePaymentIntentId == a.stripePaymentIntentId) = none) :
    handlePaymentIntentSucceeded a s =
      { s with payments := (s.payments ++
          [{ stripePaymentIntentId := a.stripePaymentIntentId,
             stripeCustomerId := a.stripeCustomerId, amount := a.amount,
             currency := a.currency, status := a.status, created := a.created,
             metadata := some (a.metadata.getD []),
             orgId := mdLookup (a.metadata.getD []) "orgId",
             userId := mdLookup (a.metadata.getD []) "userId" }]) } := by
  unfold handlePaymentIntentSucceeded
  rw [h]

theorem paymentIntent_patch
    (s : Store) (a : PaymentIntentSucceededArgs) (p : Payment)
    (h : s.payments.find?
      (fun q => q.stripePaymentIntentId == a.stripePaymentIntentId) = some p)
    (hc : (strTruthy a.stripeCustomerId &&
      !(strTruthy p.stripeCustomerId)) = true) :
    handlePaymentIntentSucceeded a s =
      { s with payments := (patchFirst
          (fun q => q.stripePaymentIntentId == a.stripePaymentIntentId)
          (fun q => { q with stripeCustomerId := a.stripeCustomerId })
          s.payments) } := by
  unfold handlePaymentIntentSucceeded
  rw [h]
  exact if_pos hc

theorem customerCreated_noop (s : Store) (a : CustomerArgs) (x : Customer)
    (h : s.customers.find?
      (fun c => c.stripeCustomerId == a.stripeCustomerId) = some x) :
    handleCustomerCreated a s = s := by
  unfold handleCustomerCreated
  rw [h]

theorem customerCreated_insert (s : Store) (a : CustomerArgs)
    (h : s.customers.find?
      (fun c => c.stripeCustomerId == a.stripeCustomerId) = none) :
    handleCustomerCreated a s =
      { s with customers := (s.customers ++
          [{ stripeCustomerId := a.stripeCustomerId, email := a.email,
             name := a.name, metadata := some (a.metadata.getD []) }]) } := by
  unfold handleCustomerCreated
  rw [h]

theorem subscriptionCreated_noop (now : Rat) (s : Store)
    (a : SubscriptionCreatedArgs) (x : Subscription)
    (h : s.subscriptions.find?
      (fun b => b.stripeSubscriptionId == a.stripeSubscriptionId) = some x) :
    handleSubscriptionCreated now a s = s := by
  unfold handleSubscriptionCreated
  rw [h]

theorem subscriptionCreated_insert (now : Rat) (s : Store)
    (a : SubscriptionCreatedArgs)
    (h : s.subscriptions.find?
      (fun b => b.stripeSubscriptionId == a.stripeSubscriptionId) = none) :
    handleSubscriptionCreated now a s =
      { s with subscriptions := (s.subscriptions ++
          [{ creationTime := now,
             stripeSubscriptionId := a.stripeSubscriptionId,
             stripeCustomerId := a.stripeCustomerId, status := a.status,
             currentPeriodEnd := a.currentPeriodEnd,
             cancelAtPeriodEnd := a.cancelAtPeriodEnd, quantity := a.quantity,
             priceId := a.priceId, metadata := some (a.metadata.getD []),
             orgId := mdLookup (a.metadata.getD []) "orgId",
             userId := mdLookup (a.metadata.getD []) "userId" }]) } := by
  unfold handleSubscriptionCreated
  rw [h]

theorem invoiceCreated_noop (s : Store) (a : InvoiceCreatedArgs) (x : Invoice)
    (h : s.invoices.find?
      (fun i => i.stripeInvoiceId == a.stripeInvoiceId) = some x) :
    handleInvoiceCreated a s = s := by
  unfold handleInvoiceCreated
  rw [h]

theorem invoiceCreated_insert (s : Store) (a : InvoiceCreatedArgs)
    (h : s.invoices.find?
      (fun i => i.stripeInvoiceId == a.stripeInvoiceId) = none) :
    handleInvoiceCreated a s =
      { s with invoices := (s.invoices ++
          [{ stripeInvoiceId := a.stripeInvoiceId,
             stripeCustomerId := a.stripeCustomerId,
             stripeSubscriptionId := a.stripeSubscriptionId,
             status := a.status, amountDue := a.amountDue,
             amountPaid := a.amountPaid, created := a.created }]) } := by
  unfold handleInvoiceCreated
  rw [h]

-- ===========================================================================
-- Claim theorems
-- ===========================================================================

/-- Claim C1 (code bug in the source): in the c1 scenario the only
subscription of cus_1 was created 1200000 ms, that is 20 minutes, before the
processing time, so by the documented 10-minute recency window the
captured-payment event for cus_1 should fall through the classifier and
insert a Payment row; instead the dispatcher leaves the store unchanged and
no Payment row for pi_1 exists, because the source compares the millisecond
creation timestamp against Date.now() / 1000 - 600, a bound expressed in
seconds, which every millisecond timestamp exceeds. -/
theorem C1_twenty_minute_old_subscription_still_suppresses_payment :
    c1Subscription.creationTime = 1700000000000 - 1200000 ∧
    processPaymentIntentSucceeded c1Fetch 1700000000000 c1Event c1Store =
      c1Store ∧
    getPayment (processPaymentIntentSucceeded c1Fetch 1700000000000 c1Event
      c1Store) "pi_1" = none := by
  have hne : ("cus_1" : String) ≠ "" := by decide
  have h : processPaymentIntentSucceeded c1Fetch 1700000000000 c1Event c1Store
      = c1Store := by
    simp only [processPaymentIntentSucceeded, c1Event, c1Store, c1Subscription,
      c1Fetch, strTruthy, listSubscriptions, emptyStore, List.filter,
      List.find?, hne]
    norm_num
    exact fun hcontra => absurd hcontra hne
  refine ⟨by norm_num [c1Subscription], h, ?_⟩
  rw [h]
  rfl

/-- Claim C2 (counterexample): updating customer cus_1 while supplying only
the email field does not leave the unsupplied name field untouched; the
stored name changes from some value to none, because the patch object always
carries all three optional keys and an undefined value removes the field. -/
theorem C2_partial_update_counterexample :
    (getCustomer (handleCustomerUpdated c2Args c2Store) "cus_1").map
      Customer.name = some none ∧
    (getCustomer c2Store "cus_1").map Customer.name = some (some "Old Name") ∧
    (getCustomer (handleCustomerUpdated c2Args c2Store) "cus_1").map
      Customer.name ≠ (getCustomer c2Store "cus_1").map Customer.name := by
  refine ⟨rfl, rfl, ?_⟩
  decide

/-- Claim C2 (amended): applying a customer update, through
handleCustomerUpdated or createOrUpdateCustomer, to an existing Customer row
overwrites all three optional fields email, name and metadata with exactly
the supplied argument values; a field not supplied by the caller is removed
from the stored row rather than left unchanged. -/
theorem C2_customer_update_overwrites_all_optional_fields
    (s : Store) (a : CustomerArgs) (c : Customer)
    (h : getCustomer s a.stripeCustomerId = some c) :
    getCustomer (handleCustomerUpdated a s) a.stripeCustomerId =
      some { c with email := a.email, name := a.name, metadata := a.metadata } ∧
    getCustomer (createOrUpdateCustomer a s) a.stripeCustomerId =
      some { c with email := a.email, name := a.name, metadata := a.metadata } := by
  unfold getCustomer at h ⊢
  have hkey : (fun d => d.stripeCustomerId == a.stripeCustomerId)
      { c with email := a.email, name := a.name, metadata := a.metadata } = true := by
    simpa using List.find?_some h
  constructor
  · unfold handleCustomerUpdated
    rw [h]
    exact find?_patchFirst _ _ _ _ h hkey
  · unfold createOrUpdateCustomer
    rw [h]
    exact find?_patchFirst _ _ _ _ h hkey

/-- Witness for the amended claim C2 at the concrete c2 scenario. -/
theorem C2_customer_update_overwrites_all_optional_fields_witness :
    getCustomer (handleCustomerUpdated c2Args c2Store) "cus_1" =
      some { c2Customer with email := some "new@example.com", name := none,
                             metadata := none } ∧
    getCustomer (createOrUpdateCustomer c2Args c2Store) "cus_1" =
      some { c2Customer with email := some "new@example.com", name := none,
                             metadata := none } :=
  C2_customer_update_overwrites_all_optional_fields c2Store c2Args c2Customer
    rfl

/-- Claim C3: the stored customer id of a Payment row is write-once. When
the stored payment already carries a truthy customer id, both a later
updatePaymentCustomer call with any other id and a redelivered
payment_intent.succeeded notification for the same payment intent leave the
store entirely unchanged, so the stored id survives. -/
theorem C3_payment_customer_write_once
    (s : Store) (a : PaymentIntentSucceededArgs) (b : String)
    (p : Payment) (cusA : String)
    (h : getPayment s a.stripePaymentIntentId = some p)
    (hset : p.stripeCustomerId = some cusA) (hne : cusA ≠ "") :
    updatePaymentCustomer a.stripePaymentIntentId b s = s ∧
    handlePaymentIntentSucceeded a s = s := by
  have htr : strTruthy p.stripeCustomerId = true := by
    simp [strTruthy, hset, hne]
  unfold getPayment at h
  constructor
  · unfold updatePaymentCustomer
    rw [h]
    simp [htr]
  · unfold handlePaymentIntentSucceeded
    rw [h]
    simp [htr]

/-- Witness for claim C3: payment pi_1 created without a customer, then
backfilled to cus_A, is immune to a later patch attempt with cus_B and to a
redelivered capture notification naming cus_B. -/
theorem C3_payment_customer_write_once_witness :
    updatePaymentCustomer "pi_1" "cus_B" c3Store = c3Store ∧
    handlePaymentIntentSucceeded c3Args2 c3Store = c3Store :=
  C3_payment_customer_write_once c3Store c3Args2 "cus_B" c3Payment "cus_A"
    rfl rfl (by decide)

/-- Claim C4: every insert-only creation handler is idempotent. For each of
handleCustomerCreated, handleSubscriptionCreated, handleInvoiceCreated and
the insert path of handlePaymentIntentSucceeded, applying the same creation
notification twice from any starting state with at most one row per natural
key leaves the state of the first application unchanged, results in exactly
one row for the natural key, and, when the key was initially absent, that
row carries exactly the fields of the notification. -/
theorem C4_creation_notification_idempotent
    (s : Store) (now now2 : Rat) (ca : CustomerArgs)
    (sa : SubscriptionCreatedArgs) (ia : InvoiceCreatedArgs)
    (pa : PaymentIntentSucceededArgs)
    (hc1 : s.customers.countP
      (fun c => c.stripeCustomerId == ca.stripeCustomerId) ≤ 1)
    (hs1 : s.subscriptions.countP
      (fun b => b.stripeSubscriptionId == sa.stripeSubscriptionId) ≤ 1)
    (hi1 : s.invoices.countP
      (fun i => i.stripeInvoiceId == ia.stripeInvoiceId) ≤ 1)
    (hp1 : s.payments.countP
      (fun p => p.stripePaymentIntentId == pa.stripePaymentIntentId) ≤ 1) :
    (handleCustomerCreated ca (handleCustomerCreated ca s) =
        handleCustomerCreated ca s ∧
      (handleCustomerCreated ca (handleCustomerCreated ca s)).customers.countP
        (fun c => c.stripeCustomerId == ca.stripeCustomerId) = 1 ∧
      (getCustomer s ca.stripeCustomerId = none →
        getCustomer (handleCustomerCreated ca s) ca.stripeCustomerId =
          some { stripeCustomerId := ca.stripeCustomerId, email := ca.email,
                 name := ca.name, metadata := some (ca.metadata.getD []) })) ∧
    (handleSubscriptionCreated now2 sa (handleSubscriptionCreated now sa s) =
        handleSubscriptionCreated now sa s ∧
      (handleSubscriptionCreated now2 sa
          (handleSubscriptionCreated now sa s)).subscriptions.countP
        (fun b => b.stripeSubscriptionId == sa.stripeSubscriptionId) = 1 ∧
      (getSubscription s sa.stripeSubscriptionId = none →
        getSubscription (handleSubscriptionCreated now sa s)
            sa.stripeSubscriptionId =
          some { creationTime := now,
                 stripeSubscriptionId := sa.stripeSubscriptionId,
                 stripeCustomerId := sa.stripeCustomerId, status := sa.status,
                 currentPeriodEnd := sa.currentPeriodEnd,
                 cancelAtPeriodEnd := sa.cancelAtPeriodEnd,
                 quantity := sa.quantity, priceId := sa.priceId,
                 metadata := some (sa.metadata.getD []),
                 orgId := mdLookup (sa.metadata.getD []) "orgId",
                 userId := mdLookup (sa.metadata.getD []) "userId" })) ∧
    (handleInvoiceCreated ia (handleInvoiceCreated ia s) =
        handleInvoiceCreated ia s ∧
      (handleInvoiceCreated ia (handleInvoiceCreated ia s)).invoices.countP
        (fun i => i.stripeInvoiceId == ia.stripeInvoiceId) = 1 ∧
      (s.invoices.find? (fun i => i.stripeInvoiceId == ia.stripeInvoiceId) =
          none →
        (handleInvoiceCreated ia s).invoices.find?
            (fun i => i.stripeInvoiceId == ia.stripeInvoiceId) =
          some { stripeInvoiceId := ia.stripeInvoiceId,
                 stripeCustomerId := ia.stripeCustomerId,
                 stripeSubscriptionId := ia.stripeSubscriptionId,
                 status := ia.status, amountDue := ia.amountDue,
                 amountPaid := ia.amountPaid, created := ia.created })) ∧
    (handlePaymentIntentSucceeded pa (handlePaymentIntentSucceeded pa s) =
        handlePaymentIntentSucceeded pa s ∧
      (handlePaymentIntentSucceeded pa
          (handlePaymentIntentSucceeded pa s)).payments.countP
        (fun p => p.stripePaymentIntentId == pa.stripePaymentIntentId) = 1 ∧
      (getPayment s pa.stripePaymentIntentId = none →
        getPayment (handlePaymentIntentSucceeded pa s) pa.stripePaymentIntentId =
          some { stripePaymentIntentId := pa.stripePaymentIntentId,
                 stripeCustomerId := pa.stripeCustomerId, amount := pa.amount,
                 currency := pa.currency, status := pa.status,
                 created := pa.created, metadata := some (pa.metadata.getD []),
                 orgId := mdLookup (pa.metadata.getD []) "orgId",
                 userId := mdLookup (pa.metadata.getD []) "userId" })) := by
  refine ⟨?_, ?_, ?_, ?_⟩
  · -- customers
    have hA : handleCustomerCreated ca (handleCustomerCreated ca s) =
        handleCustomerCreated ca s := by
      cases hfind : s.customers.find?
          (fun c => c.stripeCustomerId == ca.stripeCustomerId) with
      | some x =>
        have h1 := customerCreated_noop s ca x hfind
        rw [h1, h1]
      | none =>
        have h2 : ((handleCustomerCreated ca s).customers).find?
            (fun c => c.stripeCustomerId == ca.stripeCustomerId) =
            some { stripeCustomerId := ca.stripeCustomerId, email := ca.email,
                   name := ca.name, metadata := some (ca.metadata.getD []) } := by
          rw [customerCreated_insert s ca hfind]
          exact find?_append_singleton_of_none _ _ _ hfind (by simp)
        exact customerCreated_noop _ ca _ h2
    refine ⟨hA, ?_, ?_⟩
    · rw [hA]
      cases hfind : s.customers.find?
          (fun c => c.stripeCustomerId == ca.stripeCustomerId) with
      | some x =>
        rw [customerCreated_noop s ca x hfind]
        exact countP_eq_one_of_find?_some _ _ _ hfind hc1
      | none =>
        rw [customerCreated_insert s ca hfind]
        exact countP_append_singleton_of_none _ _ _ hfind (by simp)
    · intro habs
      unfold getCustomer at habs ⊢
      rw [customerCreated_insert s ca habs]
      exact find?_append_singleton_of_none _ _ _ habs (by simp)
  · -- subscriptions
    have hA : handleSubscriptionCreated now2 sa
          (handleSubscriptionCreated now sa s) =
        handleSubscriptionCreated now sa s := by
      cases hfind : s.subscriptions.find?
          (fun b => b.stripeSubscriptionId == sa.stripeSubscriptionId) with
      | some x =>
        rw [subscriptionCreated_noop now s sa x hfind]
        exact subscriptionCreated_noop now2 s sa x hfind
      | none =>
        have h2 : ((handleSubscriptionCreated now sa s).subscriptions).find?
            (fun b => b.stripeSubscriptionId == sa.stripeSubscriptionId) =
            some { creationTime := now,
                   stripeSubscriptionId := sa.stripeSubscriptionId,
                   stripeCustomerId := sa.stripeCustomerId, status := sa.status,
                   currentPeriodEnd := sa.currentPeriodEnd,
                   cancelAtPeriodEnd := sa.cancelAtPeriodEnd,
                   quantity := sa.quantity, priceId := sa.priceId,
                   metadata := some (sa.metadata.getD []),
                   orgId := mdLookup (sa.metadata.getD []) "orgId",
                   userId := mdLookup (sa.metadata.getD []) "userId" } := by
          rw [subscriptionCreated_insert now s sa hfind]
          exact find?_append_singleton_of_none _ _ _ hfind (by simp)
        exact subscriptionCreated_noop now2 _ sa _ h2
    refine ⟨hA, ?_, ?_⟩
    · rw [hA]
      cases hfind : s.subscriptions.find?
          (fun b => b.stripeSubscriptionId == sa.stripeSubscriptionId) with
      | some x =>
        rw [subscriptionCreated_noop now s sa x hfind]
        exact countP_eq_one_of_find?_some _ _ _ hfind hs1
      | none =>
        rw [subscriptionCreated_insert now s sa hfind]
        exact countP_append_singleton_of_none _ _ _ hfind (by simp)
    · intro habs
      unfold getSubscription at habs ⊢
      rw [subscriptionCreated_insert now s sa habs]
      exact find?_append_singleton_of_none _ _ _ habs (by simp)
  · -- invoices
    have hA : handleInvoiceCreated ia (handleInvoiceCreated ia s) =
        handleInvoiceCreated ia s := by
      cases hfind : s.invoices.find?
          (fun i => i.stripeInvoiceId == ia.stripeInvoiceId) with
      | some x =>
        have h1 := invoiceCreated_noop s ia x hfind
        rw [h1, h1]
      | none =>
        have h2 : ((handleInvoiceCreated ia s).invoices).find?
            (fun i => i.stripeInvoiceId == ia.stripeInvoiceId) =
            some { stripeInvoiceId := ia.stripeInvoiceId,
                   stripeCustomerId := ia.stripeCustomerId,
                   stripeSubscriptionId := ia.stripeSubscriptionId,
                   status := ia.status, amountDue := ia.amountDue,
                   amountPaid := ia.amountPaid, created := ia.created } := by
          rw [invoiceCreated_insert s ia hfind]
          exact find?_append_singleton_of_none _ _ _ hfind (by simp)
        exact invoiceCreated_noop _ ia _ h2
    refine ⟨hA, ?_, ?_⟩
    · rw [hA]
      cases hfind : s.invoices.find?
          (fun i => i.stripeInvoiceId == ia.stripeInvoiceId) with
      | some x =>
        rw [invoiceCreated_noop s ia x hfind]
        exact countP_eq_one_of_find?_some _ _ _ hfind hi1
      | none =>
        rw [invoiceCreated_insert s ia hfind]
        exact countP_append_singleton_of_none _ _ _ hfind (by simp)
    · intro habs
      rw [invoiceCreated_insert s ia habs]
      exact find?_append_singleton_of_none _ _ _ habs (by simp)
  · -- payments
    have hA : handlePaymentIntentSucceeded pa
          (handlePaymentIntentSucceeded pa s) =
        handlePaymentIntentSucceeded pa s := by
      cases hfind : s.payments.find?
          (fun p => p.stripePaymentIntentId == pa.stripePaymentIntentId) with
      | none =>
        have h2 : ((handlePaymentIntentSucceeded pa s).payments).find?
            (fun p => p.stripePaymentIntentId == pa.stripePaymentIntentId) =
            some { stripePaymentIntentId := pa.stripePaymentIntentId,
                   stripeCustomerId := pa.stripeCustomerId, amount := pa.amount,
                   currency := pa.currency, status := pa.status,
                   created := pa.created, metadata := some (pa.metadata.getD []),
                   orgId := mdLookup (pa.metadata.getD []) "orgId",
                   userId := mdLookup (pa.metadata.getD []) "userId" } := by
          rw [paymentIntent_insert s pa hfind]
          exact find?_append_singleton_of_none _ _ _ hfind (by simp)
        by_cases htr : strTruthy pa.stripeCustomerId = true
        · exact paymentIntent_noop_of_cond_false _ _ _ h2 (by simp [htr])
        · have hfalse : strTruthy pa.stripeCustomerId = false := by
            revert htr
            cases strTruthy pa.stripeCustomerId <;> simp
          exact paymentIntent_noop_of_cond_false _ _ _ h2 (by simp [hfalse])
      | some x =>
        by_cases hcond : (strTruthy pa.stripeCustomerId &&
            !(strTruthy x.stripeCustomerId)) = true
        · have htr : strTruthy pa.stripeCustomerId = true :=
            (Bool.and_eq_true_iff.mp hcond).1
          have h2 : ((handlePaymentIntentSucceeded pa s).payments).find?
              (fun p => p.stripePaymentIntentId == pa.stripePaymentIntentId) =
              some { x with stripeCustomerId := pa.stripeCustomerId } := by
            rw [paymentIntent_patch s pa x hfind hcond]
            exact find?_patchFirst _ _ _ _ hfind
              (by simpa using List.find?_some hfind)
          exact paymentIntent_noop_of_cond_false _ _ _ h2 (by simp [htr])
        · have h1 := paymentIntent_noop_of_cond_false s pa x hfind
            (Bool.not_eq_true _ ▸ hcond)
          rw [h1, h1]
    refine ⟨hA, ?_, ?_⟩
    · rw [hA]
      cases hfind : s.payments.find?
          (fun p => p.stripePaymentIntentId == pa.stripePaymentIntentId) with
      | none =>
        rw [paymentIntent_insert s pa hfind]
        exact countP_append_singleton_of_none _ _ _ hfind (by simp)
      | some x =>
        by_cases hcond : (strTruthy pa.stripeCustomerId &&
            !(strTruthy x.stripeCustomerId)) = true
        · rw [paymentIntent_patch s pa x hfind hcond]
          have h3 := countP_patchFirst
            (fun p => p.stripePaymentIntentId == pa.stripePaymentIntentId)
            (fun q => { q with stripeCustomerId := pa.stripeCustomerId })
            s.payments (fun y hy => hy)
          exact h3.trans (countP_eq_one_of_find?_some _ _ _ hfind hp1)
        · rw [paymentIntent_noop_of_cond_false s pa x hfind
            (Bool.not_eq_true _ ▸ hcond)]
          exact countP_eq_one_of_find?_some _ _ _ hfind hp1
    · intro habs
      unfold getPayment at habs ⊢
      rw [paymentIntent_insert s pa habs]
      exact find?_append_singleton_of_none _ _ _ habs (by simp)

/-- Witness for claim C4 on the empty store with concrete creation
notifications, the subscription one applied at times 0 and 5. -/
theorem C4_creation_notification_idempotent_witness :
    handleCustomerCreated c4CustomerArgs
        (handleCustomerCreated c4CustomerArgs emptyStore) =
      handleCustomerCreated c4CustomerArgs emptyStore ∧
    handleSubscriptionCreated 5 c4SubArgs
        (handleSubscriptionCreated 0 c4SubArgs emptyStore) =
      handleSubscriptionCreated 0 c4SubArgs emptyStore ∧
    handleInvoiceCreated c4InvoiceArgs
        (handleInvoiceCreated c4InvoiceArgs emptyStore) =
      handleInvoiceCreated c4InvoiceArgs emptyStore ∧
    handlePaymentIntentSucceeded c4PayArgs
        (handlePaymentIntentSucceeded c4PayArgs emptyStore) =
      handlePaymentIntentSucceeded c4PayArgs emptyStore := by
  have h := C4_creation_notification_idempotent emptyStore 0 5 c4CustomerArgs
    c4SubArgs c4InvoiceArgs c4PayArgs (by decide) (by decide) (by decide)
    (by decide)
  exact ⟨h.1.1, h.2.1.1, h.2.2.1.1, h.2.2.2.1⟩

/-- Claim C5: applying a subscription update that supplies status, period,
cancel flag and quantity but no metadata patches exactly those four fields
and leaves the stored metadata bag and the indexed orgId and userId fields
of the row unchanged. -/
theorem C5_subscription_update_without_metadata_preserves_linkage
    (s : Store) (a : SubscriptionUpdatedArgs) (sub : Subscription)
    (hmeta : a.metadata = none)
    (h : getSubscription s a.stripeSubscriptionId = some sub) :
    getSubscription (handleSubscriptionUpdated a s) a.stripeSubscriptionId =
      some { sub with status := a.status,
                      currentPeriodEnd := a.currentPeriodEnd,
                      cancelAtPeriodEnd := a.cancelAtPeriodEnd,
                      quantity := a.quantity } := by
  unfold getSubscription at h ⊢
  have hkey : (fun b => b.stripeSubscriptionId == a.stripeSubscriptionId)
      { sub with status := a.status,
                 currentPeriodEnd := a.currentPeriodEnd,
                 cancelAtPeriodEnd := a.cancelAtPeriodEnd,
                 quantity := a.quantity } = true := by
    simpa using List.find?_some h
  unfold handleSubscriptionUpdated
  rw [hmeta, h]
  exact find?_patchFirst _ _ _ _ h hkey

/-- Witness for claim C5 at the concrete c5 scenario: the update changes
status, period, cancel flag and quantity while the row keeps its metadata
bag and its orgId and userId. -/
theorem C5_subscription_update_without_metadata_preserves_linkage_witness :
    getSubscription (handleSubscriptionUpdated c5Args c5Store) "sub_1" =
      some { c5Subscription with status := "past_due", currentPeriodEnd := 200,
                                 cancelAtPeriodEnd := true,
                                 quantity := some 7 } :=
  C5_subscription_update_without_metadata_preserves_linkage c5Store c5Args
    c5Subscription rfl rfl

/-- Claim C6: every update or delete handler whose natural key has no
existing row no-ops: handleCustomerUpdated, handleSubscriptionUpdated,
handleSubscriptionDeleted, handleInvoicePaid and handleInvoicePaymentFailed
each return the store unchanged, inserting nothing and raising nothing,
since none of them has a throwing path. -/
theorem C6_absent_key_update_handlers_noop
    (s : Store) (ca : CustomerArgs) (sa : SubscriptionUpdatedArgs)
    (subId invId invId2 : String) (amountPaid : Int)
    (hc : getCustomer s ca.stripeCustomerId = none)
    (hs : getSubscription s sa.stripeSubscriptionId = none)
    (hd : getSubscription s subId = none)
    (hp : s.invoices.find? (fun i => i.stripeInvoiceId == invId) = none)
    (hf : s.invoices.find? (fun i => i.stripeInvoiceId == invId2) = none) :
    handleCustomerUpdated ca s = s ∧
    handleSubscriptionUpdated sa s = s ∧
    handleSubscriptionDeleted subId s = s ∧
    handleInvoicePaid invId amountPaid s = s ∧
    handleInvoicePaymentFailed invId2 s = s := by
  unfold getCustomer at hc
  unfold getSubscription at hs hd
  refine ⟨?_, ?_, ?_, ?_, ?_⟩
  · unfold handleCustomerUpdated
    rw [hc]
  · unfold handleSubscriptionUpdated
    rw [hs]
  · unfold handleSubscriptionDeleted
    rw [hd]
  · unfold handleInvoicePaid
    rw [hp]
  · unfold handleInvoicePaymentFailed
    rw [hf]

/-- Witness for claim C6 on the empty store. -/
theorem C6_absent_key_update_handlers_noop_witness :
    handleCustomerUpdated c6CustomerArgs emptyStore = emptyStore ∧
    handleSubscriptionUpdated c6SubArgs emptyStore = emptyStore ∧
    handleSubscriptionDeleted "sub_missing" emptyStore = emptyStore ∧
    handleInvoicePaid "in_missing" 500 emptyStore = emptyStore ∧
    handleInvoicePaymentFailed "in_missing2" emptyStore = emptyStore :=
  C6_absent_key_update_handlers_noop emptyStore c6CustomerArgs c6SubArgs
    "sub_missing" "in_missing" "in_missing2" 500 rfl rfl rfl rfl rfl

/-- Claim C7: the updateSubscriptionQuantity action patches the local row
only after both remote calls succeed. Whenever the remote retrieve fails,
the retrieved subscription has no items, or the remote item update fails,
the error is surfaced to the caller and the local store is returned
unchanged. -/
theorem C7_quantity_update_remote_failure_leaves_store
    (retrieve : String → Except String RemoteSubscription)
    (updateItem : String → Int → Except String Unit)
    (subId : String) (q : Int) (s : Store) :
    (∀ e, retrieve subId = Except.error e →
      updateSubscriptionQuantity retrieve updateItem subId q s =
        (Except.error e, s)) ∧
    (∀ rsub, retrieve subId = Except.ok rsub → rsub.items = [] →
      updateSubscriptionQuantity retrieve updateItem subId q s =
        (Except.error "Subscription has no items", s)) ∧
    (∀ rsub item rest e, retrieve subId = Except.ok rsub →
      rsub.items = item :: rest → updateItem item.id q = Except.error e →
      updateSubscriptionQuantity retrieve updateItem subId q s =
        (Except.error e, s)) := by
  refine ⟨?_, ?_, ?_⟩
  · intro e h
    unfold updateSubscriptionQuantity
    rw [h]
  · intro rsub h hitems
    simp [updateSubscriptionQuantity, h, hitems]
  · intro rsub item rest e h hitems hupd
    simp [updateSubscriptionQuantity, h, hitems, hupd]

/-- Witness for claim C7: with a retrieve oracle that fails, the action
surfaces the failure and the empty store is unchanged. -/
theorem C7_quantity_update_remote_failure_leaves_store_witness :
    updateSubscriptionQuantity c7Retrieve c7UpdateItem "sub_1" 3 emptyStore =
      (Except.error "network unreachable", emptyStore) :=
  (C7_quantity_update_remote_failure_leaves_store c7Retrieve c7UpdateItem
    "sub_1" 3 emptyStore).1 "network unreachable" rfl

/-- Claim C8: a subscription deletion notification for an existing row sets
its status to canceled while the row remains present, still retrievable by
its natural key, with every other field unchanged; the table keeps its
length, so no row is removed. -/
theorem C8_subscription_deleted_terminal_status
    (s : Store) (subId : String) (sub : Subscription)
    (h : getSubscription s subId = some sub) :
    getSubscription (handleSubscriptionDeleted subId s) subId =
      some { sub with status := "canceled" } ∧
    (handleSubscriptionDeleted subId s).subscriptions.length =
      s.subscriptions.length := by
  unfold getSubscription at h ⊢
  have hf : (fun b => b.stripeSubscriptionId == subId)
      { sub with status := "canceled" } = true := by
    simpa using List.find?_some h
  unfold handleSubscriptionDeleted
  rw [h]
  exact ⟨find?_patchFirst _ _ _ _ h hf, patchFirst_length _ _ _⟩

/-- Witness for claim C8 at the concrete c8 scenario. -/
theorem C8_subscription_deleted_terminal_status_witness :
    getSubscription (handleSubscriptionDeleted "sub_X" c8Store) "sub_X" =
      some { c8Subscription with status := "canceled" } ∧
    (handleSubscriptionDeleted "sub_X" c8Store).subscriptions.length =
      c8Store.subscriptions.length :=
  C8_subscription_deleted_terminal_status c8Store "sub_X" c8Subscription rfl

/-- Claim C9: inserting a subscription whose metadata bag carries the
reserved keys orgId and userId produces a row that the by_org_id lookup
returns, that the by_user_id listing contains, that the natural-key lookup
returns, and whose metadata field equals the full original bag including the
reserved keys, with orgId and userId copied into the indexed fields. -/
theorem C9_metadata_projection
    (s : Store) (now : Rat) (a : SubscriptionCreatedArgs) (bag : Metadata)
    (o u : String)
    (habs : getSubscription s a.stripeSubscriptionId = none)
    (hbag : a.metadata = some bag)
    (ho : mdLookup bag "orgId" = some o)
    (hu : mdLookup bag "userId" = some u)
    (hfresh : getSubscriptionByOrgId s o = none) :
    ∃ r, getSubscriptionByOrgId (handleSubscriptionCreated now a s) o = some r ∧
      r ∈ listSubscriptionsByUserId (handleSubscriptionCreated now a s) u ∧
      getSubscription (handleSubscriptionCreated now a s) a.stripeSubscriptionId
        = some r ∧
      r.metadata = some bag ∧ r.orgId = some o ∧ r.userId = some u := by
  unfold getSubscription at habs ⊢
  unfold getSubscriptionByOrgId at hfresh ⊢
  unfold listSubscriptionsByUserId
  unfold handleSubscriptionCreated
  rw [habs, hbag]
  refine ⟨{ creationTime := now, stripeSubscriptionId := a.stripeSubscriptionId,
            stripeCustomerId := a.stripeCustomerId, status := a.status,
            currentPeriodEnd := a.currentPeriodEnd,
            cancelAtPeriodEnd := a.cancelAtPeriodEnd, quantity := a.quantity,
            priceId := a.priceId, metadata := some bag, orgId := some o,
            userId := some u }, ?_, ?_, ?_, rfl, rfl, rfl⟩
  · rw [show (some bag).getD ([] : Metadata) = bag from rfl]
    rw [find?_append_of_none _ _ _ hfresh]
    rw [List.find?_cons_of_pos _ (by simp [ho])]
    simp [ho, hu]
  · rw [show (some bag).getD ([] : Metadata) = bag from rfl]
    rw [List.filter_append]
    refine List.mem_append_right _ ?_
    simp [ho, hu, List.filter]
  · rw [show (some bag).getD ([] : Metadata) = bag from rfl]
    rw [find?_append_of_none _ _ _ habs]
    rw [List.find?_cons_of_pos _ (by simp)]
    simp [ho, hu]

/-- Witness for claim C9: inserting into the empty store with the metadata
bag holding orgId org_1, userId u_1 and plan pro. -/
theorem C9_metadata_projection_witness :
    ∃ r, getSubscriptionByOrgId (handleSubscriptionCreated 0 c9Args emptyStore)
          "org_1" = some r ∧
      r ∈ listSubscriptionsByUserId
          (handleSubscriptionCreated 0 c9Args emptyStore) "u_1" ∧
      getSubscription (handleSubscriptionCreated 0 c9Args emptyStore) "sub_1"
        = some r ∧
      r.metadata = some [("orgId", "org_1"), ("userId", "u_1"), ("plan", "pro")] ∧
      r.orgId = some "org_1" ∧ r.userId = some "u_1" :=
  C9_metadata_projection emptyStore 0 c9Args
    [("orgId", "org_1"), ("userId", "u_1"), ("plan", "pro")] "org_1" "u_1"
    rfl rfl rfl rfl rfl

/-- Claim C10: a completion notification applied to an already existing
CheckoutSession row overwrites the stored stripeCustomerId with the incoming
value unconditionally, since the patch object always carries the key; in
particular a redelivery that carries no customer id removes a previously
stored one. -/
theorem C10_checkout_completion_overwrites_customer
    (s : Store) (a : CheckoutSessionCompletedArgs) (cs : CheckoutSession)
    (h : s.checkoutSessions.find?
        (fun c => c.stripeCheckoutSessionId == a.stripeCheckoutSessionId) =
      some cs) :
    (handleCheckoutSessionCompleted a s).checkoutSessions.find?
        (fun c => c.stripeCheckoutSessionId == a.stripeCheckoutSessionId) =
      some { cs with status := "complete",
                     stripeCustomerId := a.stripeCustomerId } := by
  have hkey : (fun c => c.stripeCheckoutSessionId == a.stripeCheckoutSessionId)
      { cs with status := "complete",
                stripeCustomerId := a.stripeCustomerId } = true := by
    simpa using List.find?_some h
  unfold handleCheckoutSessionCompleted
  rw [h]
  exact find?_patchFirst _ _ _ _ h hkey

/-- Witness for claim C10: the stored customer id cus_9 of session cs_1 is
removed by a redelivered completion notification carrying no customer. -/
theorem C10_checkout_completion_overwrites_customer_witness :
    (handleCheckoutSessionCompleted c10Args c10Store).checkoutSessions.find?
        (fun c => c.stripeCheckoutSessionId == c10Args.stripeCheckoutSessionId) =
      some { c10Session with status := "complete", stripeCustomerId := none } :=
  C10_checkout_completion_overwrites_customer c10Store c10Args c10Session rfl
